import Mathlib

/-!
Verification of the Kent indicative-title-mapping application against its
specification.  The repository has three Streamlit variants:

* `src/Backup/app-grok.py` — the "fuzzy" variant: loads a local CSV/Excel
  file, filters by grade/country, returns all exact `clean_title` matches at
  100% or otherwise the top-3 rows by a rapidfuzz `token_sort_ratio` score.
* `src/app-gsheets.py` — the "semantic" variant: loads a remote CSV, filters,
  ranks every filtered row by embedding cosine similarity, keeps the top 3,
  and re-labels exact matches among those 3 as "100%".
* `src/app.py` — the original form-only prototype (no matching).

Third-party scoring functions (rapidfuzz `token_sort_ratio`, the sentence
transformer's cosine similarity) are modelled as abstract parameters
`scorer`/`sim : String → String → ℚ`; everything else is translated from the
Python source.  A pandas DataFrame is modelled as a list of raw rows holding
the five relevant cells (`Option String`, `none` = NaN) together with the
list of raw header names; accessing a column by name succeeds exactly when
the name occurs among the headers.  Probabilities are kept as rationals
(the percent value); the decimal formatting of the displayed string is
presentation only.
-/

/-- Python `s.strip()`: remove leading and trailing whitespace. -/
def pyStrip (s : String) : String :=
  String.mk (((s.data.dropWhile Char.isWhitespace).reverse.dropWhile
    Char.isWhitespace).reverse)

/-- Python `s.lower()`: lowercase every character. -/
def pyLower (s : String) : String := String.mk (s.data.map Char.toLower)

/-- Python `s.strip().lower()`, used for `clean_title` and for query
normalization in both matching variants. -/
def normalizeTitle (s : String) : String := pyLower (pyStrip s)

/-- A row of the loaded reference table.  `clientJobTitle` is a plain
`String` because both loaders drop rows whose "Client Job Title" cell is
NaN before any matching runs. -/
structure Row where
  clientJobTitle : String
  positionTitle : Option String
  grade : Option String
  country : Option String
  jobCode : Option String
  clean_title : String
deriving Repr, DecidableEq

/-- A raw (pre-load) row: the cells of the five required columns as read
from the file/URL, `none` standing for NaN. -/
structure RawRow where
  clientJobTitle : Option String
  positionTitle : Option String
  grade : Option String
  country : Option String
  jobCode : Option String
deriving Repr, DecidableEq

/-- A raw table: the header names exactly as read, plus the rows. -/
structure RawTable where
  columns : List String
  rows : List RawRow
deriving Repr, DecidableEq

/-- The required columns checked by both loaders. -/
def requiredColumns : List String :=
  ["Client Job Title", "Position Title", "Grade", "Country", "Job Code"]

/-- Outcome of a loader run: a loaded table, a user-visible error followed
by `st.stop()` (`userError`), or a Python exception that no code catches
(`uncaught`). -/
inductive LoadOutcome where
  | ok : List Row → LoadOutcome
  | userError : String → LoadOutcome
  | uncaught : String → LoadOutcome
deriving Repr, DecidableEq

/-- `df["clean_title"] = df["Client Job Title"].str.strip().str.lower()`,
applied to a row that survived the NaN drop. -/
def mkRow (r : RawRow) : Option Row :=
  r.clientJobTitle.map fun t =>
    { clientJobTitle := t
      positionTitle := r.positionTitle
      grade := r.grade
      country := r.country
      jobCode := r.jobCode
      clean_title := normalizeTitle t }

/-- `load_data` of `src/Backup/app-grok.py`: `os.path.exists` guard
(`none` models a missing file), strip the header names, report missing
required columns via `st.error`/`st.stop`, then
`dropna(subset=["Client Job Title"])` and add `clean_title`. -/
def grokLoadData (src : Option RawTable) : LoadOutcome :=
  match src with
  | none => LoadOutcome.userError "Data file not found"
  | some t =>
    let cols := t.columns.map pyStrip
    let missing := requiredColumns.filter fun c => decide (c ∉ cols)
    if missing.isEmpty then LoadOutcome.ok (t.rows.filterMap mkRow)
    else LoadOutcome.userError "Missing required columns"

/-- True when every relevant cell of the row is NaN (`dropna(how=all)`). -/
def rowAllNa (r : RawRow) : Bool :=
  r.clientJobTitle.isNone && r.positionTitle.isNone && r.grade.isNone &&
    r.country.isNone && r.jobCode.isNone

/-- `load_data` of `src/app-gsheets.py`.  `pd.read_csv(url)` raising (URL
secret missing or unreachable) is modelled by `src = none` and is uncaught.
The code then drops all-NaN rows, accesses `df["Client Job Title"]` — a
`KeyError` escapes if that raw header is absent, since the required-column
check only comes afterwards — keeps rows whose title is non-NaN and
non-blank, strips the header names, checks the required columns, and adds
`clean_title`. -/
def gsheetsLoadData (src : Option RawTable) : LoadOutcome :=
  match src with
  | none => LoadOutcome.uncaught "read_csv: data source unavailable"
  | some t =>
    let rows1 := t.rows.filter fun r => !(rowAllNa r)
    if "Client Job Title" ∈ t.columns then
      let rows2 := rows1.filter fun r =>
        match r.clientJobTitle with
        | some s => decide (pyStrip s ≠ "")
        | none => false
      let cols := t.columns.map pyStrip
      if requiredColumns.all fun c => decide (c ∈ cols) then
        LoadOutcome.ok (rows2.filterMap mkRow)
      else LoadOutcome.userError "Missing columns"
    else LoadOutcome.uncaught "KeyError: Client Job Title"

/-- A reference row annotated with its probability/confidence, as a percent
value (the code stores a formatted string; the number is what matters). -/
structure Scored where
  row : Row
  probability : ℚ
deriving Repr, DecidableEq

/-- Descending comparison on scored rows (higher probability first). -/
def probGE (a b : Scored) : Prop := b.probability ≤ a.probability

/-- Ascending comparison on scored rows (used to model `np.argsort`). -/
def probLE (a b : Scored) : Prop := a.probability ≤ b.probability

instance : DecidableRel probGE := fun a b =>
  inferInstanceAs (Decidable (b.probability ≤ a.probability))

instance : DecidableRel probLE := fun a b =>
  inferInstanceAs (Decidable (a.probability ≤ b.probability))

instance : IsTotal Scored probGE := ⟨fun a b => le_total b.probability a.probability⟩

instance : IsTrans Scored probGE := ⟨fun _ _ _ h1 h2 => le_trans h2 h1⟩

instance : IsTotal Scored probLE := ⟨fun a b => le_total a.probability b.probability⟩

instance : IsTrans Scored probLE := ⟨fun _ _ _ h1 h2 => le_trans h1 h2⟩

/-- Grade/country mask of `src/Backup/app-grok.py` (lines 95–101): a
conjunctive boolean mask, each conjunct active when the selection is not
"All". -/
def grokFilter (df : List Row) (grade country : String) : List Row :=
  df.filter fun r =>
    decide ((grade = "All" ∨ r.grade = some grade) ∧
      (country = "All" ∨ r.country = some country))

/-- Sequential grade then country filter of `src/app-gsheets.py`
(lines 92–96). -/
def gsheetsFilter (df : List Row) (grade country : String) : List Row :=
  let d1 := if grade = "All" then df else df.filter fun r => decide (r.grade = some grade)
  if country = "All" then d1 else d1.filter fun r => decide (r.country = some country)

/-- Matching stage of `src/Backup/app-grok.py` (lines 103–123): all exact
`clean_title` matches at 100%, otherwise `process.extract(query, choices,
scorer=token_sort_ratio, limit=3)` — the three best-scoring rows in
descending score order, scores already out of 100.  `query` is the
stripped, lowercased input; the choices are the `clean_title`s. -/
def grokTop3 (scorer : String → String → ℚ) (filtered : List Row)
    (query : String) : List Scored :=
  (List.insertionSort probGE
    (filtered.map fun r => Scored.mk r (scorer query r.clean_title))).take 3

/-- The exact-match branch and the dispatch between the two branches of
`src/Backup/app-grok.py` (lines 103–123). -/
def grokMatch (scorer : String → String → ℚ) (filtered : List Row)
    (query : String) : List Scored :=
  let exact := filtered.filter fun r => decide (r.clean_title = query)
  if exact.isEmpty then grokTop3 scorer filtered query
  else exact.map fun r => Scored.mk r 100

/-- Matching stage of `src/app-gsheets.py` (lines 102–122): cosine
similarity of the query embedding against every filtered title,
`np.argsort(similarities)[-3:][::-1]` (= take the 3 best, descending),
percent formatting (`score * 100`), then the exact-match override, which
replaces the probability of those top-3 rows whose `clean_title` equals the
lowercased query by 100 — and touches nothing else.  `query` is the
stripped (not lowercased) input; similarities are taken against the raw
"Client Job Title". -/
def gsheetsTop3 (sim : String → String → ℚ) (filtered : List Row)
    (query : String) : List Scored :=
  (List.insertionSort probLE
    (filtered.map fun r => Scored.mk r (sim query r.clientJobTitle))).reverse.take 3

/-- Percent formatting and the exact-match override of `src/app-gsheets.py`
(lines 117–122), applied to the top-3 list. -/
def gsheetsMatch (sim : String → String → ℚ) (filtered : List Row)
    (query : String) : List Scored :=
  ((gsheetsTop3 sim filtered query).map fun s =>
    Scored.mk s.row (s.probability * 100)).map fun s =>
      if s.row.clean_title = pyLower query then Scored.mk s.row 100 else s

/-- Per-user session fields of the two matching variants. -/
structure SessionState where
  submitted : Bool
  client_role : String
  results : Option (List Scored)
deriving Repr, DecidableEq

/-- What the submission handler surfaced to the user. -/
inductive Outcome where
  | validationError : Outcome
  | filterWarning : Outcome
  | matched : List Scored → Outcome
deriving Repr, DecidableEq

/-- Form-submission handler of `src/Backup/app-grok.py` (lines 85–123):
blank query → `st.error`, session untouched; otherwise set the session
fields, filter (no empty-filter guard!), match, store the results. -/
def grokHandleSubmit (scorer : String → String → ℚ) (df : List Row)
    (st : SessionState) (client_role grade country : String) :
    SessionState × Outcome :=
  if pyStrip client_role = "" then (st, Outcome.validationError)
  else
    let query := normalizeTitle client_role
    let filtered := grokFilter df grade country
    let rs := grokMatch scorer filtered query
    ({ submitted := true, client_role := pyStrip client_role, results := some rs },
      Outcome.matched rs)

/-- Form-submission handler of `src/app-gsheets.py` (lines 83–125): blank
query → `st.error`, session untouched; otherwise mark submitted, filter,
`st.warning` + `st.stop` when no row survives (previously stored results
kept), else match and store. -/
def gsheetsHandleSubmit (sim : String → String → ℚ) (df : List Row)
    (st : SessionState) (client_role grade country : String) :
    SessionState × Outcome :=
  if pyStrip client_role = "" then (st, Outcome.validationError)
  else
    let query := pyStrip client_role
    let filtered := gsheetsFilter df grade country
    if filtered.isEmpty then
      ({ submitted := true, client_role := query, results := st.results },
        Outcome.filterWarning)
    else
      let rs := gsheetsMatch sim filtered query
      ({ submitted := true, client_role := query, results := some rs },
        Outcome.matched rs)

/-- Session fields of the prototype `src/app.py`. -/
structure AppState where
  submitted : Bool
  client_role : String
  dropdown1_selection : Option String
  dropdown2_selection : Option String
deriving Repr, DecidableEq

/-- Form-submission handler of `src/app.py` (lines 68–76).  The returned
`Bool` is `true` when the submission was accepted; `false` means the
mandatory-field error was shown and the state was left alone. -/
def appHandleSubmit (st : AppState) (client_role d1 d2 : String) :
    AppState × Bool :=
  if pyStrip client_role ≠ "" then
    ({ submitted := true
       client_role := client_role
       dropdown1_selection := if d1 ≠ "None" then some d1 else none
       dropdown2_selection := if d2 ≠ "None" then some d2 else none }, true)
  else (st, false)

/-! ### Concrete fixtures for witnesses and counterexamples -/

/-- A reference row whose title matches the query "abc" exactly. -/
def rowExact : Row :=
  { clientJobTitle := "abc", positionTitle := some "Standard A"
    grade := some "L1", country := some "India", jobCode := some "J1"
    clean_title := "abc" }

/-- A reference row with an unrelated title. -/
def rowOther : Row :=
  { clientJobTitle := "zzz", positionTitle := some "Standard Z"
    grade := some "L2", country := some "Iraq", jobCode := some "J2"
    clean_title := "zzz" }

/-- A duplicated reference title, distinguished only by job code. -/
def dupRow (code : String) : Row :=
  { clientJobTitle := "dup", positionTitle := some "Standard D"
    grade := some "L3", country := some "Kuwait", jobCode := some code
    clean_title := "dup" }

/-- A degenerate fuzzy scorer (any fixed value works for the properties). -/
def scorer0 : String → String → ℚ := fun _ _ => 0

/-- A similarity under which the exact-match row "abc" ranks first. -/
def simTopExact : String → String → ℚ :=
  fun _ t => if t = "zzz" then mkRat 9 10 else 1

/-- A similarity under which the non-matching row "zzz" ranks first. -/
def simTopOther : String → String → ℚ :=
  fun _ t => if t = "zzz" then mkRat 9 10 else 0

/-- The initial session (`submitted = False`, empty role, no results). -/
def emptySession : SessionState :=
  { submitted := false, client_role := "", results := none }

/-- The initial session of the prototype app. -/
def emptyAppState : AppState :=
  { submitted := false, client_role := ""
    dropdown1_selection := none, dropdown2_selection := none }

/-- A well-formed raw table with every required column and one row. -/
def goodTable : RawTable :=
  { columns := ["Client Job Title", "Position Title", "Grade", "Country", "Job Code"]
    rows := [{ clientJobTitle := some "Welder", positionTitle := some "Welder I"
               grade := some "L1", country := some "India", jobCode := some "J1" }] }

/-- The loaded form of `goodTable`'s single row. -/
def welderRow : Row :=
  { clientJobTitle := "Welder", positionTitle := some "Welder I"
    grade := some "L1", country := some "India", jobCode := some "J1"
    clean_title := "welder" }

/-- A raw table lacking the "Client Job Title" column. -/
def noTitleTable : RawTable :=
  { columns := ["Position Title", "Grade", "Country", "Job Code"], rows := [] }

/-! ### Helper lemmas -/

lemma grokTop3_row_mem {scorer : String → String → ℚ} {filtered : List Row}
    {query : String} {s : Scored} (hs : s ∈ grokTop3 scorer filtered query) :
    s.row ∈ filtered := by
  unfold grokTop3 at hs
  have h1 := List.mem_of_mem_take hs
  have h2 := (List.perm_insertionSort probGE _).mem_iff.mp h1
  rcases List.mem_map.mp h2 with ⟨r, hr, rfl⟩
  exact hr

lemma grokMatch_row_mem {scorer : String → String → ℚ} {filtered : List Row}
    {query : String} {s : Scored} (hs : s ∈ grokMatch scorer filtered query) :
    s.row ∈ filtered := by
  simp only [grokMatch] at hs
  split at hs
  · exact grokTop3_row_mem hs
  · rcases List.mem_map.mp hs with ⟨r, hr, rfl⟩
    exact (List.mem_filter.mp hr).1

lemma gsheetsTop3_row_mem {sim : String → String → ℚ} {filtered : List Row}
    {query : String} {s : Scored} (hs : s ∈ gsheetsTop3 sim filtered query) :
    s.row ∈ filtered := by
  unfold gsheetsTop3 at hs
  have h1 := List.mem_reverse.mp (List.mem_of_mem_take hs)
  have h2 := (List.perm_insertionSort probLE _).mem_iff.mp h1
  rcases List.mem_map.mp h2 with ⟨r, hr, rfl⟩
  exact hr

lemma gsheetsMatch_row_mem {sim : String → String → ℚ} {filtered : List Row}
    {query : String} {s : Scored} (hs : s ∈ gsheetsMatch sim filtered query) :
    s.row ∈ filtered := by
  unfold gsheetsMatch at hs
  rcases List.mem_map.mp hs with ⟨s1, hs1, rfl⟩
  rcases List.mem_map.mp hs1 with ⟨s2, hs2, rfl⟩
  have := gsheetsTop3_row_mem hs2
  split <;> exact this

lemma grokTop3_sorted (scorer : String → String → ℚ) (filtered : List Row)
    (query : String) : List.Sorted probGE (grokTop3 scorer filtered query) :=
  List.Pairwise.sublist (List.take_sublist 3 _)
    (List.sorted_insertionSort probGE _)

lemma gsheetsTop3_sorted (sim : String → String → ℚ) (filtered : List Row)
    (query : String) : List.Sorted probGE (gsheetsTop3 sim filtered query) := by
  unfold gsheetsTop3
  refine List.Pairwise.sublist (List.take_sublist 3 _) ?_
  exact List.pairwise_reverse.mpr
    ((List.sorted_insertionSort probLE _).imp fun h => h)

lemma grokFilter_mem {df : List Row} {grade country : String} {r : Row}
    (hr : r ∈ grokFilter df grade country) :
    r ∈ df ∧ (grade = "All" ∨ r.grade = some grade) ∧
      (country = "All" ∨ r.country = some country) := by
  unfold grokFilter at hr
  have := List.mem_filter.mp hr
  exact ⟨this.1, of_decide_eq_true this.2⟩

lemma gsheetsFilter_mem {df : List Row} {grade country : String} {r : Row}
    (hr : r ∈ gsheetsFilter df grade country) :
    r ∈ df ∧ (grade = "All" ∨ r.grade = some grade) ∧
      (country = "All" ∨ r.country = some country) := by
  unfold gsheetsFilter at hr
  by_cases hg : grade = "All" <;> by_cases hc : country = "All" <;>
    simp [hg, hc, List.mem_filter] at hr <;> tauto

/-- Concrete evaluation: with the exact row ranked first by similarity, the
semantic result still carries the non-exact runner-up at its raw score. -/
lemma evalSimTopExact :
    gsheetsMatch simTopExact [rowExact, rowOther] "abc" =
      [Scored.mk rowExact 100, Scored.mk rowOther 90] := by
  simp [gsheetsMatch, gsheetsTop3, simTopExact, rowExact, rowOther, probLE, pyLower]
  norm_num [mkRat]
  all_goals decide

/-- Concrete evaluation: with the exact row ranked second by similarity, it
is re-scored to 100 but stays second. -/
lemma evalSimTopOther :
    gsheetsMatch simTopOther [rowExact, rowOther] "abc" =
      [Scored.mk rowOther 90, Scored.mk rowExact 100] := by
  simp [gsheetsMatch, gsheetsTop3, simTopOther, rowExact, rowOther, probLE, pyLower]
  norm_num [mkRat]

example :
    grokMatch (fun _ _ => 50)
      [{ clientJobTitle := "Welder", positionTitle := some "Welder I",
         grade := some "L1", country := some "India", jobCode := some "J1",
         clean_title := "welder" }] "welder" =
    [⟨{ clientJobTitle := "Welder", positionTitle := some "Welder I",
        grade := some "L1", country := some "India", jobCode := some "J1",
        clean_title := "welder" }, 100⟩] := by
  decide

/-- When some filtered row's `clean_title` equals the query, the fuzzy
variant takes its exact-match branch. -/
lemma grokMatch_of_exists_exact {scorer : String → String → ℚ}
    {filtered : List Row} {query : String}
    (hex : ∃ r ∈ filtered, r.clean_title = query) :
    grokMatch scorer filtered query =
      (filtered.filter fun r => decide (r.clean_title = query)).map
        fun r => Scored.mk r 100 := by
  obtain ⟨r, hr, he⟩ := hex
  have hne : (filtered.filter fun r => decide (r.clean_title = query)) ≠ [] :=
    List.ne_nil_of_mem (List.mem_filter.mpr ⟨hr, by simp [he]⟩)
  simp only [grokMatch]
  rw [if_neg (by simpa [List.isEmpty_iff] using hne)]

/-- When no filtered row's `clean_title` equals the query, the fuzzy
variant takes its fuzzy branch. -/
lemma grokMatch_of_no_exact {scorer : String → String → ℚ}
    {filtered : List Row} {query : String}
    (h : ∀ r ∈ filtered, r.clean_title ≠ query) :
    grokMatch scorer filtered query = grokTop3 scorer filtered query := by
  simp only [grokMatch]
  rw [if_pos]
  simp only [List.isEmpty_iff]
  exact List.filter_eq_nil_iff.mpr fun r hr => by simp [h r hr]

/-- Any row of the semantic result whose `clean_title` equals the
lowercased query carries probability 100 (the override fired on it). -/
lemma gsheetsMatch_exact_prob {sim : String → String → ℚ}
    {filtered : List Row} {query : String} {s : Scored}
    (hs : s ∈ gsheetsMatch sim filtered query)
    (he : s.row.clean_title = pyLower query) : s.probability = 100 := by
  simp only [gsheetsMatch] at hs
  rcases List.mem_map.mp hs with ⟨s1, _, rfl⟩
  by_cases hc : s1.row.clean_title = pyLower query
  · simp [hc]
  · rw [if_neg hc] at he ⊢
    exact absurd he hc

/-- With no exact match among the filtered rows, the override is the
identity and the semantic result is sorted by descending probability. -/
lemma gsheetsMatch_sorted_of_no_exact {sim : String → String → ℚ}
    {filtered : List Row} {query : String}
    (h : ∀ r ∈ filtered, r.clean_title ≠ pyLower query) :
    List.Sorted probGE (gsheetsMatch sim filtered query) := by
  unfold gsheetsMatch
  have hid : ∀ s ∈ (gsheetsTop3 sim filtered query).map
      (fun s => Scored.mk s.row (s.probability * 100)),
      (if s.row.clean_title = pyLower query then Scored.mk s.row 100 else s) = id s := by
    intro s hs
    rcases List.mem_map.mp hs with ⟨s1, hs1, rfl⟩
    exact if_neg (h _ (gsheetsTop3_row_mem hs1))
  rw [List.map_congr_left hid, List.map_id]
  refine List.pairwise_map.mpr ?_
  refine (gsheetsTop3_sorted sim filtered query).imp ?_
  intro a b hab
  exact mul_le_mul_of_nonneg_right hab (by norm_num)

lemma grokTop3_length_le3 (scorer : String → String → ℚ) (filtered : List Row)
    (query : String) : (grokTop3 scorer filtered query).length ≤ 3 := by
  unfold grokTop3
  rw [List.length_take]
  exact min_le_left _ _

lemma grokTop3_length_le (scorer : String → String → ℚ) (filtered : List Row)
    (query : String) : (grokTop3 scorer filtered query).length ≤ filtered.length := by
  unfold grokTop3
  rw [List.length_take, (List.perm_insertionSort probGE _).length_eq, List.length_map]
  exact min_le_right _ _

lemma gsheetsTop3_length_le3 (sim : String → String → ℚ) (filtered : List Row)
    (query : String) : (gsheetsTop3 sim filtered query).length ≤ 3 := by
  unfold gsheetsTop3
  rw [List.length_take]
  exact min_le_left _ _

lemma gsheetsTop3_length_le (sim : String → String → ℚ) (filtered : List Row)
    (query : String) : (gsheetsTop3 sim filtered query).length ≤ filtered.length := by
  unfold gsheetsTop3
  rw [List.length_take, List.length_reverse,
    (List.perm_insertionSort probLE _).length_eq, List.length_map]
  exact min_le_right _ _

/-- A successfully built row records its raw title and the normalized
`clean_title`. -/
lemma mkRow_clean {raw : RawRow} {r : Row} (h : mkRow raw = some r) :
    r.clean_title = normalizeTitle r.clientJobTitle ∧
      raw.clientJobTitle = some r.clientJobTitle := by
  unfold mkRow at h
  cases hc : raw.clientJobTitle with
  | none => rw [hc] at h; simp at h
  | some t =>
    rw [hc] at h
    simp only [Option.map_some'] at h
    cases h
    exact ⟨rfl, rfl⟩

/-! ### Claims -/

/-- C1 (counterexample).  In the semantic variant, an exact-match row can be
present in the filtered table ("abc"), yet the returned result is not made
up exclusively of 100%-scored exact rows: with the query "abc" the result
also carries the non-exact row "zzz" at its raw similarity score. -/
theorem C1_counterexample :
    (∃ r ∈ ([rowExact, rowOther] : List Row), r.clean_title = pyLower "abc") ∧
    ¬(∀ s ∈ gsheetsMatch simTopExact [rowExact, rowOther] "abc",
        s.row.clean_title = pyLower "abc" ∧ s.probability = 100) := by
  refine ⟨⟨rowExact, by decide, by decide⟩, fun h => ?_⟩
  have h2 := h (Scored.mk rowOther 90) (by rw [evalSimTopExact]; decide)
  exact absurd h2.1 (by decide)

/-- C1 (amended).  In the fuzzy variant the invariant holds in full: when
some filtered row's `clean_title` equals the normalized query, the result
consists exactly of those rows, each scored 100%.  In the semantic variant
only the weaker half survives: every returned row whose `clean_title`
equals the lowercased query is scored 100%, but non-exact top-3 candidates
remain in the result with their similarity scores. -/
theorem C1_exact_match_override (scorer sim : String → String → ℚ)
    (filtered : List Row) (query : String)
    (hex : ∃ r ∈ filtered, r.clean_title = query) :
    (∀ s ∈ grokMatch scorer filtered query,
        s.row.clean_title = query ∧ s.probability = 100) ∧
    (∀ r ∈ filtered, r.clean_title = query →
        Scored.mk r 100 ∈ grokMatch scorer filtered query) ∧
    (∀ s ∈ gsheetsMatch sim filtered query,
        s.row.clean_title = pyLower query → s.probability = 100) := by
  refine ⟨?_, ?_, ?_⟩
  · intro s hs
    rw [grokMatch_of_exists_exact hex] at hs
    rcases List.mem_map.mp hs with ⟨r, hr, rfl⟩
    exact ⟨of_decide_eq_true (List.mem_filter.mp hr).2, rfl⟩
  · intro r hr he
    rw [grokMatch_of_exists_exact hex]
    exact List.mem_map_of_mem _ (List.mem_filter.mpr ⟨hr, by simp [he]⟩)
  · intro s hs he
    exact gsheetsMatch_exact_prob hs he

/-- C1 (witness): the amended theorem applied to a one-row table whose
title equals the query. -/
theorem C1_exact_match_override_witness :
    (∃ r ∈ ([rowExact] : List Row), r.clean_title = "abc") ∧
    ((∀ s ∈ grokMatch scorer0 [rowExact] "abc",
        s.row.clean_title = "abc" ∧ s.probability = 100) ∧
     (∀ r ∈ ([rowExact] : List Row), r.clean_title = "abc" →
        Scored.mk r 100 ∈ grokMatch scorer0 [rowExact] "abc") ∧
     (∀ s ∈ gsheetsMatch simTopExact [rowExact] "abc",
        s.row.clean_title = pyLower "abc" → s.probability = 100)) :=
  ⟨⟨rowExact, by decide, by decide⟩,
   C1_exact_match_override scorer0 simTopExact [rowExact] "abc"
     ⟨rowExact, by decide, by decide⟩⟩

/-- C2 (counterexample).  In the semantic variant the query "abc" matches
`rowExact`'s title exactly, but the first entry of the result is the
non-exact row "zzz" at 90%, not a 100% entry: the exact row is re-scored
to 100% yet stays in second position. -/
theorem C2_counterexample :
    (∃ r ∈ ([rowExact, rowOther] : List Row),
        normalizeTitle r.clientJobTitle = normalizeTitle "abc") ∧
    (gsheetsMatch simTopOther [rowExact, rowOther] (pyStrip "abc")).head? =
      some (Scored.mk rowOther 90) ∧ (90 : ℚ) ≠ 100 := by
  refine ⟨⟨rowExact, by decide, by decide⟩, ?_, by norm_num⟩
  have h : pyStrip "abc" = "abc" := by decide
  rw [h, evalSimTopOther]
  rfl

/-- C2 (amended).  For a query equal (after strip/lower) to some filtered
row's title: the fuzzy variant's first entry has probability 100%; in the
semantic variant this is only guaranteed when the first entry is itself an
exact match — exact rows among the top 3 are re-scored to 100% but need
not come first. -/
theorem C2_top_entry (scorer sim : String → String → ℚ)
    (filtered : List Row) (qraw : String)
    (hinv : ∀ r ∈ filtered, r.clean_title = normalizeTitle r.clientJobTitle)
    (hex : ∃ r ∈ filtered, normalizeTitle r.clientJobTitle = normalizeTitle qraw) :
    (∃ hd, (grokMatch scorer filtered (normalizeTitle qraw)).head? = some hd ∧
        hd.probability = 100) ∧
    (∀ hd, (gsheetsMatch sim filtered (pyStrip qraw)).head? = some hd →
        hd.row.clean_title = normalizeTitle qraw → hd.probability = 100) := by
  constructor
  · obtain ⟨r, hr, he⟩ := hex
    have hex' : ∃ r ∈ filtered, r.clean_title = normalizeTitle qraw :=
      ⟨r, hr, (hinv r hr).trans he⟩
    rw [grokMatch_of_exists_exact hex']
    rcases hE : filtered.filter
        (fun r => decide (r.clean_title = normalizeTitle qraw)) with _ | ⟨a, l⟩
    · obtain ⟨r', hr', he'⟩ := hex'
      have : r' ∈ (filtered.filter
          fun r => decide (r.clean_title = normalizeTitle qraw)) :=
        List.mem_filter.mpr ⟨hr', by simp [he']⟩
      rw [hE] at this
      cases this
    · rw [hE]
      exact ⟨Scored.mk a 100, rfl, rfl⟩
  · intro hd hhd he
    have hmem : hd ∈ gsheetsMatch sim filtered (pyStrip qraw) :=
      List.mem_of_mem_head? hhd
    exact gsheetsMatch_exact_prob hmem he

/-- C2 (witness): the amended theorem applied to a one-row table whose
title equals the query "abc". -/
theorem C2_top_entry_witness :
    ((∀ r ∈ ([rowExact] : List Row),
        r.clean_title = normalizeTitle r.clientJobTitle) ∧
     (∃ r ∈ ([rowExact] : List Row),
        normalizeTitle r.clientJobTitle = normalizeTitle "abc")) ∧
    ((∃ hd, (grokMatch scorer0 [rowExact] (normalizeTitle "abc")).head? = some hd ∧
        hd.probability = 100) ∧
     (∀ hd, (gsheetsMatch simTopExact [rowExact] (pyStrip "abc")).head? = some hd →
        hd.row.clean_title = normalizeTitle "abc" → hd.probability = 100)) :=
  ⟨⟨by decide, ⟨rowExact, by decide, by decide⟩⟩,
   C2_top_entry scorer0 simTopExact [rowExact] "abc" (by decide)
     ⟨rowExact, by decide, by decide⟩⟩

/-- C3 (confirmed).  Both variants draw every returned row from the
filtered table, so a grade or country selection other than "All" is
reflected exactly in every returned row. -/
theorem C3_filters_respected (scorer sim : String → String → ℚ) (df : List Row)
    (grade country query qraw : String) :
    (∀ s ∈ grokMatch scorer (grokFilter df grade country) query,
        (grade ≠ "All" → s.row.grade = some grade) ∧
        (country ≠ "All" → s.row.country = some country)) ∧
    (∀ s ∈ gsheetsMatch sim (gsheetsFilter df grade country) qraw,
        (grade ≠ "All" → s.row.grade = some grade) ∧
        (country ≠ "All" → s.row.country = some country)) := by
  constructor
  · intro s hs
    have h := grokFilter_mem (grokMatch_row_mem hs)
    exact ⟨fun hg => h.2.1.resolve_left hg, fun hc => h.2.2.resolve_left hc⟩
  · intro s hs
    have h := gsheetsFilter_mem (gsheetsMatch_row_mem hs)
    exact ⟨fun hg => h.2.1.resolve_left hg, fun hc => h.2.2.resolve_left hc⟩

/-- C3 (witness): a concrete filtered exact match under the "L1"/"India"
selection keeps both selected values. -/
theorem C3_filters_respected_witness :
    Scored.mk rowExact 100 ∈
      grokMatch scorer0 (grokFilter [rowExact] "L1" "India") "abc" ∧
    (("L1" ≠ "All" → (Scored.mk rowExact 100).row.grade = some "L1") ∧
     ("India" ≠ "All" → (Scored.mk rowExact 100).row.country = some "India")) :=
  ⟨by decide,
   (C3_filters_respected scorer0 simTopExact [rowExact] "L1" "India" "abc" "abc").1
     (Scored.mk rowExact 100) (by decide)⟩

/-- C4 (counterexample).  The fuzzy variant's exact-match branch returns
every exact row, so four reference rows sharing the title "dup" produce a
4-row result — more than the claimed bound of 3. -/
theorem C4_counterexample :
    ¬((grokMatch scorer0 [dupRow "J1", dupRow "J2", dupRow "J3", dupRow "J4"]
        "dup").length ≤ 3) := by
  decide

/-- C4 (amended).  Both variants return at most as many rows as survive
filtering; the semantic variant returns at most 3; the fuzzy variant
returns at most 3 only when no exact match exists (its exact branch
returns every exact row, which can exceed 3). -/
theorem C4_result_count (scorer sim : String → String → ℚ)
    (filtered : List Row) (query qraw : String) :
    ((grokMatch scorer filtered query).length ≤ filtered.length ∧
     ((∀ r ∈ filtered, r.clean_title ≠ query) →
        (grokMatch scorer filtered query).length ≤ 3)) ∧
    ((gsheetsMatch sim filtered qraw).length ≤ 3 ∧
     (gsheetsMatch sim filtered qraw).length ≤ filtered.length) := by
  refine ⟨⟨?_, ?_⟩, ?_, ?_⟩
  · simp only [grokMatch]
    split
    · exact grokTop3_length_le scorer filtered query
    · rw [List.length_map]
      exact List.length_filter_le _ _
  · intro h
    rw [grokMatch_of_no_exact h]
    exact grokTop3_length_le3 scorer filtered query
  · simp only [gsheetsMatch, List.length_map]
    exact gsheetsTop3_length_le3 sim filtered qraw
  · simp only [gsheetsMatch, List.length_map]
    exact gsheetsTop3_length_le sim filtered qraw

/-- C4 (witness): with no exact match on a two-row table, the fuzzy result
has at most 3 rows. -/
theorem C4_result_count_witness :
    (∀ r ∈ ([rowExact, rowOther] : List Row), r.clean_title ≠ "qqq") ∧
    (grokMatch scorer0 [rowExact, rowOther] "qqq").length ≤ 3 :=
  ⟨by decide,
   (C4_result_count scorer0 simTopOther [rowExact, rowOther] "qqq" "qqq").1.2
     (by decide)⟩

/-- C5 (confirmed).  With no exact match among the filtered rows, the
fuzzy result is the top-3 slice of a descending sort and the semantic
result is the (identity) override of the descending-sorted top 3, so each
returned probability is greater than or equal to the next one. -/
theorem C5_descending_order (scorer sim : String → String → ℚ)
    (filtered : List Row) (qraw : String)
    (hno : ∀ r ∈ filtered, r.clean_title ≠ normalizeTitle qraw) :
    List.Sorted probGE (grokMatch scorer filtered (normalizeTitle qraw)) ∧
    List.Sorted probGE (gsheetsMatch sim filtered (pyStrip qraw)) := by
  constructor
  · rw [grokMatch_of_no_exact hno]
    exact grokTop3_sorted scorer filtered (normalizeTitle qraw)
  · exact gsheetsMatch_sorted_of_no_exact hno

/-- C5 (witness): both variants' results on a two-row table with no exact
match for "qqq" are sorted by descending probability. -/
theorem C5_descending_order_witness :
    (∀ r ∈ ([rowExact, rowOther] : List Row),
        r.clean_title ≠ normalizeTitle "qqq") ∧
    (List.Sorted probGE (grokMatch scorer0 [rowExact, rowOther]
        (normalizeTitle "qqq")) ∧
     List.Sorted probGE (gsheetsMatch simTopOther [rowExact, rowOther]
        (pyStrip "qqq"))) :=
  ⟨by decide,
   C5_descending_order scorer0 simTopOther [rowExact, rowOther] "qqq" (by decide)⟩

/-- C6 (code bug in the semantic variant).  The fuzzy loader reports both
failure modes as user-visible errors, but the semantic loader accesses
`df["Client Job Title"]` (line 33) before its required-column check
(line 37): when that column is absent a `KeyError` escapes uncaught, and a
missing/unreachable data source likewise propagates an exception — no
user-visible error, no controlled halt. -/
theorem C6_loader_divergence :
    gsheetsLoadData (some noTitleTable) =
      LoadOutcome.uncaught "KeyError: Client Job Title" ∧
    gsheetsLoadData none =
      LoadOutcome.uncaught "read_csv: data source unavailable" ∧
    grokLoadData none = LoadOutcome.userError "Data file not found" ∧
    grokLoadData (some noTitleTable) =
      LoadOutcome.userError "Missing required columns" := by
  decide

/-- C7 (counterexample).  In the fuzzy variant a submission whose filters
("L9") eliminate every row produces no warning: the handler runs to
completion and stores an empty result list. -/
theorem C7_counterexample :
    grokHandleSubmit scorer0 [rowExact] emptySession "abc" "L9" "All" =
      ({ submitted := true, client_role := "abc", results := some [] },
        Outcome.matched []) := by
  decide

/-- C7 (amended).  When the filters leave zero rows: the semantic variant
warns and stops, leaving the stored results unchanged; the fuzzy variant
shows no warning and completes with an empty stored result list (still no
crash). -/
theorem C7_empty_filter (scorer sim : String → String → ℚ) (df : List Row)
    (st : SessionState) (role grade country : String)
    (hrole : pyStrip role ≠ "")
    (hg : gsheetsFilter df grade country = [])
    (hk : grokFilter df grade country = []) :
    gsheetsHandleSubmit sim df st role grade country =
      ({ submitted := true, client_role := pyStrip role, results := st.results },
        Outcome.filterWarning) ∧
    grokHandleSubmit scorer df st role grade country =
      ({ submitted := true, client_role := pyStrip role, results := some [] },
        Outcome.matched []) := by
  constructor
  · simp only [gsheetsHandleSubmit]
    rw [if_neg hrole, hg]
    rfl
  · simp only [grokHandleSubmit]
    rw [if_neg hrole, hk]
    rfl

/-- C7 (witness): the amended theorem applied to a concrete submission
whose grade filter "L9" matches no row. -/
theorem C7_empty_filter_witness :
    (pyStrip "abc" ≠ "" ∧ gsheetsFilter [rowExact] "L9" "All" = [] ∧
      grokFilter [rowExact] "L9" "All" = []) ∧
    (gsheetsHandleSubmit simTopOther [rowExact] emptySession "abc" "L9" "All" =
      ({ submitted := true, client_role := pyStrip "abc",
         results := emptySession.results }, Outcome.filterWarning) ∧
     grokHandleSubmit scorer0 [rowExact] emptySession "abc" "L9" "All" =
      ({ submitted := true, client_role := pyStrip "abc", results := some [] },
        Outcome.matched [])) :=
  ⟨⟨by decide, by decide, by decide⟩,
   C7_empty_filter scorer0 simTopOther [rowExact] emptySession "abc" "L9" "All"
     (by decide) (by decide) (by decide)⟩

/-- C8 (confirmed).  A query that strips to the empty string triggers the
inline validation error in all three variants; no matching branch runs. -/
theorem C8_empty_query (scorer sim : String → String → ℚ) (df : List Row)
    (st : SessionState) (ast : AppState) (role grade country d1 d2 : String)
    (h : pyStrip role = "") :
    (grokHandleSubmit scorer df st role grade country).2 =
      Outcome.validationError ∧
    (gsheetsHandleSubmit sim df st role grade country).2 =
      Outcome.validationError ∧
    (appHandleSubmit ast role d1 d2).2 = false := by
  refine ⟨?_, ?_, ?_⟩ <;>
    simp [grokHandleSubmit, gsheetsHandleSubmit, appHandleSubmit, h]

/-- C8 (witness): the whitespace-only query "   " is rejected by all three
handlers. -/
theorem C8_empty_query_witness :
    pyStrip "   " = "" ∧
    ((grokHandleSubmit scorer0 [rowExact] emptySession "   " "All" "All").2 =
      Outcome.validationError ∧
     (gsheetsHandleSubmit simTopOther [rowExact] emptySession "   " "All" "All").2 =
      Outcome.validationError ∧
     (appHandleSubmit emptyAppState "   " "None" "None").2 = false) :=
  ⟨by decide,
   C8_empty_query scorer0 simTopOther [rowExact] emptySession emptyAppState
     "   " "All" "All" "None" "None" (by decide)⟩

/-- C9 (confirmed).  When the empty-query validation fails, both matching
variants return the session state unchanged: the submitted flag, stored
role and stored results all keep their previous values. -/
theorem C9_state_preserved (scorer sim : String → String → ℚ) (df : List Row)
    (st : SessionState) (role grade country : String)
    (h : pyStrip role = "") :
    (grokHandleSubmit scorer df st role grade country).1 = st ∧
    (gsheetsHandleSubmit sim df st role grade country).1 = st := by
  constructor <;> simp [grokHandleSubmit, gsheetsHandleSubmit, h]

/-- C9 (witness): a whitespace-only submission on a session holding earlier
results leaves that session untouched. -/
theorem C9_state_preserved_witness :
    pyStrip "   " = "" ∧
    ((grokHandleSubmit scorer0 [rowExact]
        { submitted := true, client_role := "abc",
          results := some [Scored.mk rowExact 100] } "   " "All" "All").1 =
      { submitted := true, client_role := "abc",
        results := some [Scored.mk rowExact 100] } ∧
     (gsheetsHandleSubmit simTopOther [rowExact]
        { submitted := true, client_role := "abc",
          results := some [Scored.mk rowExact 100] } "   " "All" "All").1 =
      { submitted := true, client_role := "abc",
        results := some [Scored.mk rowExact 100] }) :=
  ⟨by decide,
   C9_state_preserved scorer0 simTopOther [rowExact]
     { submitted := true, client_role := "abc",
       results := some [Scored.mk rowExact 100] } "   " "All" "All" (by decide)⟩

/-- C10 (confirmed).  Every row a loader returns carries a `clean_title`
equal to the stripped, lowercased `Client Job Title` (which is non-null by
construction: NaN-titled rows are dropped), and in the semantic variant
the title is additionally non-blank after stripping. -/
theorem C10_clean_title_invariant (src src' : Option RawTable)
    (rows rows' : List Row)
    (h1 : grokLoadData src = LoadOutcome.ok rows)
    (h2 : gsheetsLoadData src' = LoadOutcome.ok rows') :
    (∀ r ∈ rows, r.clean_title = normalizeTitle r.clientJobTitle) ∧
    (∀ r ∈ rows', r.clean_title = normalizeTitle r.clientJobTitle ∧
        pyStrip r.clientJobTitle ≠ "") := by
  constructor
  · cases src with
    | none => simp [grokLoadData] at h1
    | some t =>
      simp only [grokLoadData] at h1
      split at h1
      · cases h1
        intro r hr
        rcases List.mem_filterMap.mp hr with ⟨raw, _, hmk⟩
        exact (mkRow_clean hmk).1
      · cases h1
  · cases src' with
    | none => simp [gsheetsLoadData] at h2
    | some t =>
      simp only [gsheetsLoadData] at h2
      split at h2
      · split at h2
        · cases h2
          intro r hr
          rcases List.mem_filterMap.mp hr with ⟨raw, hraw, hmk⟩
          obtain ⟨hclean, htitle⟩ := mkRow_clean hmk
          refine ⟨hclean, ?_⟩
          have hp := (List.mem_filter.mp hraw).2
          rw [htitle] at hp
          simpa using hp
        · cases h2
      · cases h2

/-- C10 (witness): the invariant applied to a concrete well-formed table
loaded by both variants. -/
theorem C10_clean_title_invariant_witness :
    (grokLoadData (some goodTable) = LoadOutcome.ok [welderRow] ∧
     gsheetsLoadData (some goodTable) = LoadOutcome.ok [welderRow]) ∧
    ((∀ r ∈ ([welderRow] : List Row),
        r.clean_title = normalizeTitle r.clientJobTitle) ∧
     (∀ r ∈ ([welderRow] : List Row),
        r.clean_title = normalizeTitle r.clientJobTitle ∧
          pyStrip r.clientJobTitle ≠ "")) :=
  ⟨⟨by decide, by decide⟩,
   C10_clean_title_invariant (some goodTable) (some goodTable)
     [welderRow] [welderRow] (by decide) (by decide)⟩
